import Mathlib

/-
Shallow embedding of the snipeit-asset-scanner server (src/unnamed/part_000):
the audit submission workflow, batch resolution, staleness classifier,
asset snapshot cache, paged inventory fetch, input validation, and audit
deletion. JavaScript truthiness and strict equality are modelled explicitly
where the handlers rely on them.
-/

/-- A JavaScript value as it can appear for a location id in a request body:
`undefined`, `null`, a number, or a string. Strict equality (`===`) on these
values is structural equality of this inductive. -/
inductive JsVal where
  | undef
  | null
  | num (n : Int)
  | str (s : String)
deriving DecidableEq, Repr

/-- JavaScript truthiness of a `JsVal` (`undefined`, `null`, `0` and `""` are falsy). -/
def jsTruthy : JsVal → Bool
  | .undef => false
  | .null => false
  | .num n => n != 0
  | .str s => s != ""

/-- Truthiness of an optional string (`undefined`/`null` and `""` are falsy). -/
def jsTruthyStrOpt : Option String → Bool
  | none => false
  | some s => s != ""

/-- JavaScript `x || null` on an optional string: empty string collapses to null. -/
def jsOrNullStr : Option String → Option String
  | some s => if s = "" then none else some s
  | none => none

/-- JavaScript `x || d` on an optional string with a string default. -/
def jsOrStr (o : Option String) (d : String) : String :=
  match o with
  | some s => if s = "" then d else s
  | none => d

/-- One row of the local `audits` table. -/
structure AuditRecord where
  id : Nat
  asset_id : Int
  asset_tag : String
  asset_name : Option String
  sap_asset_number : Option String
  expected_location_id : JsVal
  expected_location_name : Option String
  actual_location_id : JsVal
  actual_location_name : Option String
  status : String
  notes : Option String
  user_name : Option String
  snipeit_audit_posted : Bool
  created_at : String
  resolved_at : Option String
  resolved_by : Option String
deriving DecidableEq, Repr

/-- The local SQLite database: the `audits` rows plus the AUTOINCREMENT counter. -/
structure Db where
  rows : List AuditRecord
  nextId : Nat
deriving DecidableEq, Repr

/-- The request body of `POST /api/audit`. -/
structure AuditReq where
  asset_id : Int
  asset_tag : String
  asset_name : Option String
  sap_asset_number : Option String
  expected_location_id : JsVal
  expected_location_name : Option String
  actual_location_id : JsVal
  actual_location_name : Option String
  notes : Option String
  user_name : Option String
deriving DecidableEq, Repr

/-- The JSON body answered by `POST /api/audit` on success. -/
structure SubmitResp where
  success : Bool
  id : Nat
  status : String
  snipeit_audit_posted : Bool
deriving DecidableEq, Repr

/-- `expected_location_id === actual_location_id ? 'match' : 'mismatch'` (line 263). -/
def computeStatus (expected actual : JsVal) : String :=
  if expected = actual then "match" else "mismatch"

/-- Core of `POST /api/audit` after the token check: compute the status, record
the outcome of the best-effort Snipe-IT audit post (`postOk`; a thrown error is
caught and only flips the flag), and insert the row locally. -/
def submitAudit (postOk : Bool) (req : AuditReq) (createdAt : String) (db : Db) :
    Db × SubmitResp :=
  let status := computeStatus req.expected_location_id req.actual_location_id
  let row : AuditRecord :=
    { id := db.nextId
      asset_id := req.asset_id
      asset_tag := req.asset_tag
      asset_name := req.asset_name
      sap_asset_number := jsOrNullStr req.sap_asset_number
      expected_location_id := req.expected_location_id
      expected_location_name := req.expected_location_name
      actual_location_id := req.actual_location_id
      actual_location_name := req.actual_location_name
      status := status
      notes := req.notes
      user_name := req.user_name
      snipeit_audit_posted := postOk
      created_at := createdAt
      resolved_at := none
      resolved_by := none }
  (⟨db.rows ++ [row], db.nextId + 1⟩,
   ⟨true, db.nextId, status, postOk⟩)

/-- Outcome of `POST /api/audit` at the HTTP layer. -/
inductive SubmitOut where
  | authRequired (msg : String)
  | done (resp : SubmitResp)
deriving DecidableEq, Repr

/-- `POST /api/audit`: token gate, then `submitAudit`. -/
def auditEndpoint (postOk : Bool) (apiToken : Option String) (req : AuditReq)
    (createdAt : String) (db : Db) : Db × SubmitOut :=
  if jsTruthyStrOpt apiToken = false then (db, .authRequired "API token required")
  else
    let r := submitAudit postOk req createdAt db
    (r.1, .done r.2)

/-- One itemized success entry pushed by `POST /api/audits/resolve`. -/
structure OkEntry where
  id : Nat
  success : Bool
deriving DecidableEq, Repr

/-- One itemized per-id error entry pushed by `POST /api/audits/resolve`. -/
structure ErrEntry where
  id : Nat
  error : String
deriving DecidableEq, Repr

/-- `SELECT * FROM audits WHERE id = ?` (first matching row). -/
def findAudit (rows : List AuditRecord) (auditId : Nat) : Option AuditRecord :=
  rows.find? (fun r => r.id == auditId)

/-- `UPDATE audits SET status = 'resolved', resolved_at = ?, resolved_by = ? WHERE id = ?`. -/
def updateResolved (rows : List AuditRecord) (auditId : Nat) (now : String)
    (resolvedBy : String) : List AuditRecord :=
  rows.map (fun r =>
    if r.id = auditId then
      { r with status := "resolved", resolved_at := some now, resolved_by := some resolvedBy }
    else r)

/-- Result of processing a single audit id inside the resolve loop: the updated
rows, the itemized outcome, and how many remote patch calls were attempted. -/
structure StepOut where
  rows : List AuditRecord
  out : OkEntry ⊕ ErrEntry
  calls : Nat
deriving Repr

/-- The body of the per-id loop of `POST /api/audits/resolve` (lines 650-697).
`patch asset_id location_id` models `PATCH /api/v1/hardware/:asset_id`: `none`
is success, `some msg` a thrown remote error whose message is captured. -/
def resolveStep (patch : Int → JsVal → Option String) (now : String)
    (resolvedBy : Option String) (rows : List AuditRecord) (auditId : Nat) : StepOut :=
  match findAudit rows auditId with
  | none => ⟨rows, .inr ⟨auditId, "Audit not found"⟩, 0⟩
  | some audit =>
    if audit.status ≠ "mismatch" then ⟨rows, .inr ⟨auditId, "Audit is not a mismatch"⟩, 0⟩
    else if jsTruthyStrOpt audit.resolved_at then ⟨rows, .inr ⟨auditId, "Already resolved"⟩, 0⟩
    else
      match patch audit.asset_id audit.actual_location_id with
      | some msg => ⟨rows, .inr ⟨auditId, msg⟩, 1⟩
      | none =>
        ⟨updateResolved rows auditId now (jsOrStr resolvedBy "Admin"),
         .inl ⟨auditId, true⟩, 1⟩

/-- Accumulated outcome of the resolve loop: final rows, the `results` and
`errors` arrays in push order, and the number of remote patch calls. -/
structure LoopOut where
  rows : List AuditRecord
  results : List OkEntry
  errors : List ErrEntry
  calls : Nat
deriving Repr

/-- The `for (const auditId of audit_ids)` loop of `POST /api/audits/resolve`:
each id is processed in order; an error for one id never aborts the rest. -/
def resolveLoop (patch : Int → JsVal → Option String) (now : String)
    (resolvedBy : Option String) : List AuditRecord → List Nat → LoopOut
  | rows, [] => ⟨rows, [], [], 0⟩
  | rows, auditId :: rest =>
    let s := resolveStep patch now resolvedBy rows auditId
    let L := resolveLoop patch now resolvedBy s.rows rest
    match s.out with
    | .inl ok => ⟨L.rows, ok :: L.results, L.errors, s.calls + L.calls⟩
    | .inr e => ⟨L.rows, L.results, e :: L.errors, s.calls + L.calls⟩

/-- The aggregate JSON body answered by `POST /api/audits/resolve`. -/
structure ResolveResp where
  success : Bool
  resolved : Nat
  failed : Nat
  results : List OkEntry
  errors : List ErrEntry
deriving DecidableEq, Repr

/-- The response object built at lines 699-705: `resolved` is the number of
itemized successes and `failed` the number of itemized errors. -/
def mkResolveResp (results : List OkEntry) (errors : List ErrEntry) : ResolveResp :=
  ⟨decide (errors.length = 0), results.length, errors.length, results, errors⟩

/-- Outcome of `POST /api/audits/resolve` at the HTTP layer. -/
inductive ResolveOut where
  | authRequired (msg : String)
  | badRequest (msg : String)
  | done (resp : ResolveResp)
deriving DecidableEq, Repr

/-- `POST /api/audits/resolve`: admin and token gates, `audit_ids` validation
(missing, not an array — modelled as `none` — or empty array), then the loop.
The final `Nat` counts remote patch calls made. -/
def resolveEndpoint (patch : Int → JsVal → Option String) (expectedPw : String)
    (adminPassword apiToken : Option String) (now : String)
    (rows : List AuditRecord) (audit_ids : Option (List Nat))
    (resolved_by : Option String) : List AuditRecord × ResolveOut × Nat :=
  if adminPassword ≠ some expectedPw then
    (rows, .authRequired "Admin password required", 0)
  else if jsTruthyStrOpt apiToken = false then
    (rows, .authRequired "Snipe-IT API token required", 0)
  else
    match audit_ids with
    | none => (rows, .badRequest "audit_ids array is required", 0)
    | some [] => (rows, .badRequest "audit_ids array is required", 0)
    | some (auditId :: rest) =>
      let L := resolveLoop patch now resolved_by rows (auditId :: rest)
      (L.rows, .done (mkResolveResp L.results L.errors), L.calls)

/-- A raw Snipe-IT date field: absent, `null`, a plain string, or an object
with optional `datetime` and `formatted` string members. -/
inductive DateField where
  | absent
  | null
  | str (s : String)
  | obj (datetime : Option String) (formatted : Option String)
deriving DecidableEq, Repr

/-- JavaScript truthiness of a raw date field (objects are always truthy,
the empty string is falsy). -/
def dfTruthy : DateField → Bool
  | .absent => false
  | .null => false
  | .str s => s != ""
  | .obj _ _ => true

/-- `extractDate` (lines 493-499): falsy field gives null; a string is used
as-is; an object prefers a truthy `datetime`, then a truthy `formatted`. -/
def extractDate : DateField → Option String
  | .absent => none
  | .null => none
  | .str s => if s = "" then none else some s
  | .obj d f =>
    match jsOrNullStr d with
    | some ds => some ds
    | none =>
      match jsOrNullStr f with
      | some fs => some fs
      | none => none

/-- `parseDate` (lines 501-506): extract a string, then `new Date(...)`; an
invalid date gives null. The native parser is abstracted as `p : String →
Option Int` returning epoch milliseconds, `none` for an invalid date. -/
def parseDate (p : String → Option Int) (dateField : DateField) : Option Int :=
  match extractDate dateField with
  | none => none
  | some s => if s = "" then none else p s

/-- One custom-field descriptor: its `field` column name and its `value`. -/
structure CustomField where
  field : Option String
  value : Option String
deriving DecidableEq, Repr

/-- A nested object of which only `name` is read (`model`, `category`, ...). -/
structure NamedRef where
  name : Option String
deriving DecidableEq, Repr

/-- The nested `location` object: its `id` and `name` are read. -/
structure LocRef where
  id : Int
  name : Option String
deriving DecidableEq, Repr

/-- A raw asset object as returned by the Snipe-IT hardware listing, restricted
to the members the server reads. `custom_fields` is the ordered entry list of
the custom-fields object (`[]` models an absent or empty object). -/
structure RawAsset where
  id : Int
  asset_tag : String
  name : Option String
  serial : Option String
  model : Option NamedRef
  category : Option NamedRef
  location : Option LocRef
  assigned_to : Option NamedRef
  status_label : Option NamedRef
  custom_fields : List (String × CustomField)
  last_audit_date : DateField
  next_audit_date : DateField
deriving DecidableEq, Repr

/-- Prefix test on character lists (used to model JavaScript `includes`). -/
def listPre : List Char → List Char → Bool
  | [], _ => true
  | _ :: _, [] => false
  | a :: as, b :: bs => a == b && listPre as bs

/-- Substring test on character lists. -/
def listSub (sub : List Char) : List Char → Bool
  | [] => listPre sub []
  | b :: bs => listPre sub (b :: bs) || listSub sub bs

/-- JavaScript `s.includes(pat)`. -/
def strIncl (s pat : String) : Bool :=
  listSub pat.toList s.toList

/-- Property lookup on the custom-fields object (`custom_fields[name]`). -/
def jsGetField (cf : List (String × CustomField)) (nm : String) : Option CustomField :=
  (cf.find? (fun e => e.1 == nm)).map (fun e => e.2)

/-- The fallback scan over all custom fields (lines 527-533): the first field
whose name or `field` label contains "sap" supplies `value || null`, then break. -/
def scanSapField : List (String × CustomField) → Option String
  | [] => none
  | (fieldName, fieldData) :: rest =>
    if strIncl fieldName.toLower "sap" ||
        (jsTruthyStrOpt fieldData.field && strIncl (fieldData.field.getD "").toLower "sap") then
      jsOrNullStr fieldData.value
    else scanSapField rest

/-- SAP asset number extraction (lines 517-535): exact field-name matches first,
then the case-insensitive "sap" scan; nothing when the object is absent/empty. -/
def extractSapNumber (cf : List (String × CustomField)) : Option String :=
  if cf.isEmpty then none
  else
    match (match jsGetField cf "SAP Asset Number / ID" with
           | some f => some f
           | none => jsGetField cf "SAP Asset Number") with
    | some sapField => jsOrNullStr sapField.value
    | none => scanSapField cf

/-- The normalized projection built for each asset (lines 537-554). -/
structure ProcessedAsset where
  id : Int
  asset_tag : String
  name : Option String
  serial : Option String
  model : Option String
  category : Option String
  location : Option String
  location_id : Option Int
  assigned_to : Option String
  status : Option String
  sap_asset_number : Option String
  last_audit_date : Option String
  next_audit_date : Option String
  never_audited : Bool
  not_audited_this_year : Bool
  audit_overdue : Bool
deriving DecidableEq, Repr

/-- The per-asset mapping of `processedAssets` (lines 512-555). `p` is the
native date parser, `currentYearStart` is January 1 of the current year and
`nowMs` the classification wall-clock instant, both in epoch milliseconds. -/
def processAsset (p : String → Option Int) (currentYearStart nowMs : Int)
    (asset : RawAsset) : ProcessedAsset :=
  let lastAuditDate := parseDate p asset.last_audit_date
  let nextAuditDate := parseDate p asset.next_audit_date
  { id := asset.id
    asset_tag := asset.asset_tag
    name := asset.name
    serial := asset.serial
    model := jsOrNullStr (asset.model.bind (fun m => m.name))
    category := jsOrNullStr (asset.category.bind (fun c => c.name))
    location := jsOrNullStr (asset.location.bind (fun l => l.name))
    location_id :=
      match asset.location with
      | some l => if l.id = 0 then none else some l.id
      | none => none
    assigned_to := jsOrNullStr (asset.assigned_to.bind (fun a => a.name))
    status := jsOrNullStr (asset.status_label.bind (fun s => s.name))
    sap_asset_number := extractSapNumber asset.custom_fields
    last_audit_date := extractDate asset.last_audit_date
    next_audit_date := extractDate asset.next_audit_date
    never_audited := !(dfTruthy asset.last_audit_date)
    not_audited_this_year :=
      match lastAuditDate with
      | some d => decide (d < currentYearStart)
      | none => true
    audit_overdue :=
      match nextAuditDate with
      | some d => decide (d < nowMs)
      | none => false }

/-- The cached, classified snapshot (lines 562-568). -/
structure Snapshot where
  total : Nat
  never_audited : List ProcessedAsset
  not_audited_this_year : List ProcessedAsset
  audit_overdue : List ProcessedAsset
  all_assets : List ProcessedAsset
deriving DecidableEq, Repr

/-- Classification of the accumulated asset list (lines 512-568): process every
asset, then filter the three buckets; `not_audited_this_year` excludes assets
already in the never-audited bucket. -/
def buildSnapshot (p : String → Option Int) (currentYearStart nowMs : Int)
    (allAssets : List RawAsset) : Snapshot :=
  let processedAssets := allAssets.map (processAsset p currentYearStart nowMs)
  { total := allAssets.length
    never_audited := processedAssets.filter (fun a => a.never_audited)
    not_audited_this_year :=
      processedAssets.filter (fun a => !a.never_audited && a.not_audited_this_year)
    audit_overdue := processedAssets.filter (fun a => a.audit_overdue)
    all_assets := processedAssets }

/-- The pagination loop of `GET /api/snipeit/assets` (lines 461-490): request
pages of 500 at increasing offsets, accumulate, and stop as soon as a page has
fewer than 500 rows or the accumulated count reaches the reported total.
`pages o` is the `rows` array answered at offset `o`; `total` the remote's
reported total (modelled as fixed across responses). -/
def fetchPagesAux (pages : Nat → List RawAsset) (total : Nat)
    (offset : Nat) (acc : List RawAsset) : List RawAsset :=
  if h : (pages offset).length < 500 ∨ total ≤ (acc ++ pages offset).length then
    acc ++ pages offset
  else
    fetchPagesAux pages total (offset + 500) (acc ++ pages offset)
termination_by total - acc.length
decreasing_by
  simp only [not_or, not_lt, not_le, List.length_append] at h
  simp only [List.length_append]
  omega

/-- The full paged inventory fetch, started at offset 0 with an empty array. -/
def fetchAllAssetsPaged (pages : Nat → List RawAsset) (total : Nat) : List RawAsset :=
  fetchPagesAux pages total 0 []

/-- The process-wide asset cache slot (lines 17-22): `data` and `timestamp`
are both `null` at startup. -/
structure AssetCache where
  data : Option Snapshot
  timestamp : Option Nat
deriving DecidableEq, Repr

/-- The cache TTL: 10 minutes in milliseconds. -/
def ttl : Nat := 10 * 60 * 1000

/-- The JSON body answered by `GET /api/snipeit/assets` on success:
`cache_age` is reported in whole seconds (`Math.round((now - ts) / 1000)`). -/
structure AssetsResp where
  snapshot : Snapshot
  cached : Bool
  cache_age : Nat
deriving DecidableEq, Repr

/-- Outcome of `GET /api/snipeit/assets` at the HTTP layer. -/
inductive AssetsOut where
  | authRequired (msg : String)
  | done (resp : AssetsResp)
deriving DecidableEq, Repr

/-- `GET /api/snipeit/assets` (lines 433-587): admin and token gates; cache hit
when not forcing, both slot members are truthy, and the age is under the TTL;
otherwise refetch all pages, classify, store `(snapshot, now)` and answer with
`cached = false`, `cache_age = 0`. -/
def getAssetsEndpoint (p : String → Option Int) (currentYearStart nowMs : Int)
    (pages : Nat → List RawAsset) (total : Nat) (expectedPw : String)
    (adminPassword apiToken : Option String) (forceRefresh : Bool) (now : Nat)
    (cache : AssetCache) : AssetCache × AssetsOut :=
  if adminPassword ≠ some expectedPw then (cache, .authRequired "Admin password required")
  else if jsTruthyStrOpt apiToken = false then
    (cache, .authRequired "Snipe-IT API token required")
  else
    let refetched :=
      let allAssets := fetchAllAssetsPaged pages total
      let result := buildSnapshot p currentYearStart nowMs allAssets
      (AssetCache.mk (some result) (some now), AssetsOut.done ⟨result, false, 0⟩)
    match cache.data, cache.timestamp with
    | some d, some t =>
      if forceRefresh = false ∧ t ≠ 0 ∧ now - t < ttl then
        (cache, .done ⟨d, true, (now - t + 500) / 1000⟩)
      else refetched
    | some _, none => refetched
    | none, _ => refetched

/-- Outcome of `GET /api/assets/search`. -/
inductive SearchResp where
  | ok (asset : RawAsset)
  | badRequest (msg : String)
  | authRequired (msg : String)
  | notFound (msg : String)
deriving DecidableEq, Repr

/-- Whether one asset matches the search term through its SAP custom fields
(lines 154-173): the exact-name fields first, then the case-insensitive scan. -/
def assetSapHit (searchTerm : String) (asset : RawAsset) : Bool :=
  !asset.custom_fields.isEmpty &&
    ((match (match jsGetField asset.custom_fields "SAP Asset Number / ID" with
             | some f => some f
             | none => jsGetField asset.custom_fields "SAP Asset Number") with
      | some sapField =>
        jsTruthyStrOpt sapField.value &&
          ((sapField.value.getD "").toLower == searchTerm.toLower)
      | none => false) ||
     asset.custom_fields.any (fun e =>
       (strIncl e.1.toLower "sap" ||
         (jsTruthyStrOpt e.2.field && strIncl (e.2.field.getD "").toLower "sap")) &&
       jsTruthyStrOpt e.2.value &&
       ((e.2.value.getD "").toLower == searchTerm.toLower)))

/-- `GET /api/assets/search` (lines 96-185): token gate, query validation, then
phase one (`bytag`, a thrown not-found modelled as `none`) and phase two (the
bounded text search with exact-tag then SAP-field scan). The `Nat` counts
remote calls made. -/
def searchEndpoint (bytag : String → Option RawAsset)
    (searchApi : String → List RawAsset) (apiToken : Option String)
    (query : Option String) : SearchResp × Nat :=
  if jsTruthyStrOpt apiToken = false then (.authRequired "API token required", 0)
  else if jsTruthyStrOpt query = false ∨ (query.getD "").trim = "" then
    (.badRequest "Search query required", 0)
  else
    let searchTerm := (query.getD "").trim
    let phase2 :=
      let assets := searchApi searchTerm
      match assets.find? (fun a =>
          (a.asset_tag != "") && (a.asset_tag.toLower == searchTerm.toLower)) with
      | some a => (SearchResp.ok a, 2)
      | none =>
        match assets.find? (assetSapHit searchTerm) with
        | some a => (SearchResp.ok a, 2)
        | none =>
          (SearchResp.notFound "Asset not found. Please check the asset tag or SAP number.", 2)
    match bytag searchTerm with
    | some a => if a.id != 0 then (SearchResp.ok a, 1) else phase2
    | none => phase2

/-- Outcome of `PATCH /api/assets/:id/location`. -/
inductive PatchResp where
  | ok
  | badRequest (msg : String)
  | authRequired (msg : String)
  | remoteError (status : Nat) (details : String)
deriving DecidableEq, Repr

/-- `PATCH /api/assets/:id/location` (lines 590-627): admin and token gates,
`location_id` validation (falsy is rejected), then the remote patch whose
error status and payload are surfaced verbatim. The `Nat` counts remote calls. -/
def patchLocationEndpoint (remotePatch : String → JsVal → Option (Nat × String))
    (expectedPw : String) (adminPassword apiToken : Option String)
    (assetId : String) (location_id : JsVal) : PatchResp × Nat :=
  if adminPassword ≠ some expectedPw then (.authRequired "Admin password required", 0)
  else if jsTruthyStrOpt apiToken = false then
    (.authRequired "Snipe-IT API token required", 0)
  else if jsTruthy location_id = false then (.badRequest "location_id is required", 0)
  else
    match remotePatch assetId location_id with
    | none => (.ok, 1)
    | some (s, d) => (.remoteError s d, 1)

/-- Outcome of `DELETE /api/audits/:id`. -/
inductive DeleteOut where
  | authRequired (msg : String)
  | done (success : Bool)
deriving DecidableEq, Repr

/-- `DELETE /api/audits/:id` (lines 709-723): admin gate, `DELETE FROM audits
WHERE id = ?`, then `{ success: true }` whether or not a row existed. -/
def deleteAuditEndpoint (expectedPw : String) (adminPassword : Option String)
    (db : Db) (auditId : Nat) : Db × DeleteOut :=
  if adminPassword ≠ some expectedPw then (db, .authRequired "Admin password required")
  else (⟨db.rows.filter (fun r => r.id != auditId), db.nextId⟩, .done true)

/-- A date parser oracle that parses nothing (every string invalid). -/
def parseNone : String → Option Int := fun _ => none

/-- A remote patch oracle that always succeeds. -/
def patchAlwaysOk : Int → JsVal → Option String := fun _ _ => none

/-- A concrete unresolved mismatch row used in concrete evaluations. -/
def mismatchRow : AuditRecord :=
  { id := 1
    asset_id := 5
    asset_tag := "A-001"
    asset_name := some "Printer"
    sap_asset_number := none
    expected_location_id := JsVal.num 2
    expected_location_name := some "Room A"
    actual_location_id := JsVal.num 3
    actual_location_name := some "Room B"
    status := "mismatch"
    notes := none
    user_name := some "alice"
    snipeit_audit_posted := false
    created_at := "2024-01-01T00:00:00Z"
    resolved_at := none
    resolved_by := none }

/-- A concrete raw asset whose `last_audit_date` is present but an object with
neither `datetime` nor `formatted`: its extraction result is null although the
raw field is truthy. -/
def emptyObjAsset : RawAsset :=
  { id := 1
    asset_tag := "T-1"
    name := none
    serial := none
    model := none
    category := none
    location := none
    assigned_to := none
    status_label := none
    custom_fields := []
    last_audit_date := DateField.obj none none
    next_audit_date := DateField.absent }

/-- A concrete raw asset with `last_audit_date` absent. -/
def absentDateAsset : RawAsset :=
  { id := 2
    asset_tag := "T-2"
    name := none
    serial := none
    model := none
    category := none
    location := none
    assigned_to := none
    status_label := none
    custom_fields := []
    last_audit_date := DateField.absent
    next_audit_date := DateField.absent }

/-- A concrete empty snapshot used to populate the cache in concrete runs. -/
def snap0 : Snapshot := ⟨0, [], [], [], []⟩

/-- Claim C1: for every submit-audit call (with a valid token), the status
returned and the status persisted on the inserted row coincide, and they are
`"match"` exactly when `expected_location_id` is strictly equal to
`actual_location_id`, `"mismatch"` for any inequality (including one side
null); the stored value is this creation-time computation. -/
theorem submit_status_spec (postOk : Bool) (tok : Option String) (req : AuditReq)
    (createdAt : String) (db : Db) (htok : jsTruthyStrOpt tok = true) :
    ∃ r row, (auditEndpoint postOk tok req createdAt db).2 = SubmitOut.done r ∧
      (auditEndpoint postOk tok req createdAt db).1.rows = db.rows ++ [row] ∧
      row.status = r.status ∧
      r.status = computeStatus req.expected_location_id req.actual_location_id ∧
      (r.status = "match" ↔ req.expected_location_id = req.actual_location_id) ∧
      (r.status = "mismatch" ↔ req.expected_location_id ≠ req.actual_location_id) := by
  unfold auditEndpoint
  rw [htok]
  simp only [Bool.true_eq_false, if_false]
  refine ⟨_, _, rfl, rfl, rfl, rfl, ?_, ?_⟩
  · unfold submitAudit computeStatus
    by_cases h : req.expected_location_id = req.actual_location_id <;> simp [h]
  · unfold submitAudit computeStatus
    by_cases h : req.expected_location_id = req.actual_location_id <;> simp [h]

/-- Witness for C1 at a concrete request where expected and actual differ. -/
theorem submit_status_witness :
    ∃ r row,
      (auditEndpoint true (some "tk")
        ⟨7, "A-7", none, none, JsVal.num 1, none, JsVal.null, none, none, none⟩
        "2024-01-01" ⟨[], 1⟩).2 = SubmitOut.done r ∧
      (auditEndpoint true (some "tk")
        ⟨7, "A-7", none, none, JsVal.num 1, none, JsVal.null, none, none, none⟩
        "2024-01-01" ⟨[], 1⟩).1.rows = ([] : List AuditRecord) ++ [row] ∧
      row.status = r.status ∧
      r.status = computeStatus (JsVal.num 1) JsVal.null ∧
      (r.status = "match" ↔ JsVal.num 1 = JsVal.null) ∧
      (r.status = "mismatch" ↔ JsVal.num 1 ≠ JsVal.null) :=
  submit_status_spec true (some "tk")
    ⟨7, "A-7", none, none, JsVal.num 1, none, JsVal.null, none, none, none⟩
    "2024-01-01" ⟨[], 1⟩ (by decide)

/-- Claim C2: a failure of the remote audit post is swallowed: the local insert
still occurs with `snipeit_audit_posted` recorded as false, and the call
answers the new record id and the computed status; id and status are the same
for every remote outcome. -/
theorem submit_swallow_spec (tok : Option String) (req : AuditReq)
    (createdAt : String) (db : Db) (htok : jsTruthyStrOpt tok = true) :
    ∃ r row, (auditEndpoint false tok req createdAt db).2 = SubmitOut.done r ∧
      (auditEndpoint false tok req createdAt db).1.rows = db.rows ++ [row] ∧
      row.snipeit_audit_posted = false ∧
      r.snipeit_audit_posted = false ∧
      r.success = true ∧
      r.id = db.nextId ∧
      r.status = computeStatus req.expected_location_id req.actual_location_id ∧
      (∀ postOk : Bool, ∃ r2,
        (auditEndpoint postOk tok req createdAt db).2 = SubmitOut.done r2 ∧
        r2.id = r.id ∧ r2.status = r.status) := by
  unfold auditEndpoint
  rw [htok]
  simp only [Bool.true_eq_false, if_false]
  exact ⟨_, _, rfl, rfl, rfl, rfl, rfl, rfl, rfl, fun postOk => ⟨_, rfl, rfl, rfl⟩⟩

/-- Witness for C2 at a concrete request with the remote post failing. -/
theorem submit_swallow_witness :
    ∃ r row,
      (auditEndpoint false (some "tk")
        ⟨7, "A-7", none, none, JsVal.num 1, none, JsVal.num 1, none, none, none⟩
        "2024-01-01" ⟨[], 1⟩).2 = SubmitOut.done r ∧
      (auditEndpoint false (some "tk")
        ⟨7, "A-7", none, none, JsVal.num 1, none, JsVal.num 1, none, none, none⟩
        "2024-01-01" ⟨[], 1⟩).1.rows = ([] : List AuditRecord) ++ [row] ∧
      row.snipeit_audit_posted = false ∧
      r.snipeit_audit_posted = false ∧
      r.success = true ∧
      r.id = 1 ∧
      r.status = computeStatus (JsVal.num 1) (JsVal.num 1) ∧
      (∀ postOk : Bool, ∃ r2,
        (auditEndpoint postOk (some "tk")
          ⟨7, "A-7", none, none, JsVal.num 1, none, JsVal.num 1, none, none, none⟩
          "2024-01-01" ⟨[], 1⟩).2 = SubmitOut.done r2 ∧
        r2.id = r.id ∧ r2.status = r.status) :=
  submit_swallow_spec (some "tk")
    ⟨7, "A-7", none, none, JsVal.num 1, none, JsVal.num 1, none, none, none⟩
    "2024-01-01" ⟨[], 1⟩ (by decide)

/-- Each step's itemized outcome carries exactly the processed audit id:
either a success entry `{id, success: true}` or an error entry for that id. -/
theorem resolveStep_id (patch : Int → JsVal → Option String) (now : String)
    (rb : Option String) (rows : List AuditRecord) (auditId : Nat) :
    (resolveStep patch now rb rows auditId).out = Sum.inl ⟨auditId, true⟩ ∨
    (∃ msg, (resolveStep patch now rb rows auditId).out = Sum.inr ⟨auditId, msg⟩) := by
  unfold resolveStep
  rcases findAudit rows auditId with _ | audit
  · exact Or.inr ⟨_, rfl⟩
  · dsimp only
    split_ifs
    · exact Or.inr ⟨_, rfl⟩
    · exact Or.inr ⟨_, rfl⟩
    · rcases patch audit.asset_id audit.actual_location_id with _ | msg
      · exact Or.inl rfl
      · exact Or.inr ⟨_, rfl⟩

/-- The ids of the itemized successes and errors of a resolve batch are a
permutation of the submitted id list: every id yields exactly one outcome. -/
theorem resolveLoop_perm (patch : Int → JsVal → Option String) (now : String)
    (rb : Option String) : ∀ (ids : List Nat) (rows : List AuditRecord),
    List.Perm ((resolveLoop patch now rb rows ids).results.map (fun o => o.id) ++
      (resolveLoop patch now rb rows ids).errors.map (fun e => e.id)) ids := by
  intro ids
  induction ids with
  | nil => intro rows; simp [resolveLoop]
  | cons auditId rest ih =>
    intro rows
    simp only [resolveLoop]
    rcases resolveStep_id patch now rb rows auditId with h | ⟨msg, h⟩
    · rw [h]
      simpa using (ih _).cons auditId
    · rw [h]
      simp only [List.map_cons]
      exact List.perm_middle.trans ((ih _).cons auditId)

/-- Every itemized success entry of a resolve batch has `success = true`. -/
theorem resolveLoop_results_success (patch : Int → JsVal → Option String)
    (now : String) (rb : Option String) : ∀ (ids : List Nat)
    (rows : List AuditRecord) (o : OkEntry),
    o ∈ (resolveLoop patch now rb rows ids).results → o.success = true := by
  intro ids
  induction ids with
  | nil => intro rows o h; simp [resolveLoop] at h
  | cons auditId rest ih =>
    intro rows o h
    simp only [resolveLoop] at h
    rcases resolveStep_id patch now rb rows auditId with hs | ⟨msg, hs⟩ <;> rw [hs] at h
    · rcases List.mem_cons.mp h with h1 | h1
      · rw [h1]
      · exact ih _ o h1
    · exact ih _ o h

/-- Claim C3: in a batch resolve, a failure on one id never aborts the rest:
the outcome ids are a permutation of the submitted list (one itemized outcome
per id), the itemized successes all carry `success = true`, every outcome id
comes from the list, and the aggregate response reports `resolved` equal to
the number of successes and `failed` equal to the number of errors. -/
theorem resolve_batch_spec (patch : Int → JsVal → Option String) (now : String)
    (rb : Option String) (rows : List AuditRecord) (ids : List Nat) :
    List.Perm ((resolveLoop patch now rb rows ids).results.map (fun o => o.id) ++
      (resolveLoop patch now rb rows ids).errors.map (fun e => e.id)) ids ∧
    (resolveLoop patch now rb rows ids).results.length +
      (resolveLoop patch now rb rows ids).errors.length = ids.length ∧
    (∀ o ∈ (resolveLoop patch now rb rows ids).results, o.success = true ∧ o.id ∈ ids) ∧
    (∀ e ∈ (resolveLoop patch now rb rows ids).errors, e.id ∈ ids) ∧
    (mkResolveResp (resolveLoop patch now rb rows ids).results
        (resolveLoop patch now rb rows ids).errors).resolved =
      (resolveLoop patch now rb rows ids).results.length ∧
    (mkResolveResp (resolveLoop patch now rb rows ids).results
        (resolveLoop patch now rb rows ids).errors).failed =
      (resolveLoop patch now rb rows ids).errors.length ∧
    (∀ pw tok, jsTruthyStrOpt tok = true → ids ≠ [] →
      resolveEndpoint patch pw (some pw) tok now rows (some ids) rb =
        ((resolveLoop patch now rb rows ids).rows,
         ResolveOut.done (mkResolveResp (resolveLoop patch now rb rows ids).results
           (resolveLoop patch now rb rows ids).errors),
         (resolveLoop patch now rb rows ids).calls)) := by
  have hperm := resolveLoop_perm patch now rb ids rows
  refine ⟨hperm, ?_, ?_, ?_, rfl, rfl, ?_⟩
  · have := hperm.length_eq
    simpa using this
  · intro o ho
    refine ⟨resolveLoop_results_success patch now rb ids rows o ho, ?_⟩
    exact hperm.mem_iff.mp (List.mem_append.mpr (Or.inl (List.mem_map_of_mem _ ho)))
  · intro e he
    exact hperm.mem_iff.mp (List.mem_append.mpr (Or.inr (List.mem_map_of_mem _ he)))
  · intro pw tok htok hne
    unfold resolveEndpoint
    rw [htok]
    simp only [ne_eq, not_true_eq_false, if_false, Bool.true_eq_false, if_neg, ite_false]
    cases ids with
    | nil => exact absurd rfl hne
    | cons a rest => simp

/-- Witness for C3: a concrete batch over an empty store. -/
theorem resolve_batch_witness :
    resolveEndpoint patchAlwaysOk "pw" (some "pw") (some "tk") "2024-02-01" [] (some [1]) none =
      ((resolveLoop patchAlwaysOk "2024-02-01" none [] [1]).rows,
       ResolveOut.done (mkResolveResp
         (resolveLoop patchAlwaysOk "2024-02-01" none [] [1]).results
         (resolveLoop patchAlwaysOk "2024-02-01" none [] [1]).errors),
       (resolveLoop patchAlwaysOk "2024-02-01" none [] [1]).calls) :=
  (resolve_batch_spec patchAlwaysOk "2024-02-01" none [] [1]).2.2.2.2.2.2
    "pw" (some "tk") (by decide) (by decide)

/-- Looking up an id after `updateResolved` for that id yields the looked-up
row with its resolution fields set. -/
theorem findAudit_updateResolved (rows : List AuditRecord) (auditId : Nat)
    (now rbv : String) :
    findAudit (updateResolved rows auditId now rbv) auditId =
      (findAudit rows auditId).map (fun a =>
        { a with status := "resolved", resolved_at := some now, resolved_by := some rbv }) := by
  induction rows with
  | nil => rfl
  | cons r rest ih =>
    by_cases h : r.id = auditId
    · simp [findAudit, updateResolved, List.find?_cons_of_pos, h]
    · have hb : (r.id == auditId) = false := by simpa using h
      simp only [updateResolved, List.map_cons, if_neg h, findAudit,
        List.find?_cons_of_neg, hb, Bool.false_eq_true, not_false_eq_true]
      exact ih

/-- Claim C4 (amended): after a successful first resolution of an audit id, a
second resolve call for the same id yields the per-id error "Audit is not a
mismatch" (the record's status is already `"resolved"`, so the not-a-mismatch
guard fires before the dedicated already-resolved guard), makes no remote
call, and leaves the store — in particular `resolved_at`/`resolved_by` as set
by the first call — unchanged; no record is resolved twice. -/
theorem resolve_twice_spec (patch patch2 : Int → JsVal → Option String)
    (now now2 : String) (rb rb2 : Option String) (rows : List AuditRecord)
    (auditId : Nat) (h : (resolveLoop patch now rb rows [auditId]).results ≠ []) :
    resolveLoop patch2 now2 rb2 (resolveLoop patch now rb rows [auditId]).rows [auditId] =
      ⟨(resolveLoop patch now rb rows [auditId]).rows, [],
       [⟨auditId, "Audit is not a mismatch"⟩], 0⟩ ∧
    (∃ a, findAudit (resolveLoop patch now rb rows [auditId]).rows auditId = some a ∧
      a.status = "resolved" ∧ a.resolved_at = some now ∧
      a.resolved_by = some (jsOrStr rb "Admin")) := by
  rcases hf : findAudit rows auditId with _ | audit
  · exact absurd (by simp [resolveLoop, resolveStep, hf]) h
  · by_cases h1 : audit.status ≠ "mismatch"
    · exact absurd (by simp [resolveLoop, resolveStep, hf, h1]) h
    · by_cases h2 : jsTruthyStrOpt audit.resolved_at = true
      · exact absurd (by simp [resolveLoop, resolveStep, hf, h1, h2]) h
      · rcases hp : patch audit.asset_id audit.actual_location_id with _ | msg
        · have hloop1 : resolveLoop patch now rb rows [auditId] =
              ⟨updateResolved rows auditId now (jsOrStr rb "Admin"),
               [⟨auditId, true⟩], [], 1⟩ := by
            simp [resolveLoop, resolveStep, hf, h1, h2, hp]
          rw [hloop1]
          have hfind2 : findAudit (updateResolved rows auditId now (jsOrStr rb "Admin")) auditId = some { audit with status := "resolved", resolved_at := some now, resolved_by := some (jsOrStr rb "Admin") } := by
            rw [findAudit_updateResolved, hf]
            rfl
          have hstep2 : resolveStep patch2 now2 rb2 (updateResolved rows auditId now (jsOrStr rb "Admin")) auditId = ⟨updateResolved rows auditId now (jsOrStr rb "Admin"), .inr ⟨auditId, "Audit is not a mismatch"⟩, 0⟩ := by
            unfold resolveStep
            rw [hfind2]
            dsimp only
            rw [if_pos (by decide)]
          refine ⟨?_, _, hfind2, rfl, rfl, rfl⟩
          simp [resolveLoop, hstep2]
        · exact absurd (by simp [resolveLoop, resolveStep, hf, h1, h2, hp]) h

/-- Witness for C4's amended theorem on a concrete one-row store. -/
theorem resolve_twice_witness :
    resolveLoop patchAlwaysOk "2024-02-02" (some "Bob")
        (resolveLoop patchAlwaysOk "2024-02-01" (some "Bob") [mismatchRow] [1]).rows [1] =
      ⟨(resolveLoop patchAlwaysOk "2024-02-01" (some "Bob") [mismatchRow] [1]).rows, [],
       [⟨1, "Audit is not a mismatch"⟩], 0⟩ ∧
    (∃ a, findAudit (resolveLoop patchAlwaysOk "2024-02-01" (some "Bob")
        [mismatchRow] [1]).rows 1 = some a ∧
      a.status = "resolved" ∧ a.resolved_at = some "2024-02-01" ∧
      a.resolved_by = some (jsOrStr (some "Bob") "Admin")) :=
  resolve_twice_spec patchAlwaysOk patchAlwaysOk "2024-02-01" "2024-02-02"
    (some "Bob") (some "Bob") [mismatchRow] 1 (by decide)

/-- Counterexample for C4 as stated: resolving the same id twice makes the
second call report "Audit is not a mismatch", not "already resolved". -/
theorem resolve_twice_cex :
    (resolveLoop patchAlwaysOk "2024-02-01" (some "Bob") [mismatchRow] [1]).results =
      [⟨1, true⟩] ∧
    (resolveLoop patchAlwaysOk "2024-02-02" (some "Bob")
        (resolveLoop patchAlwaysOk "2024-02-01" (some "Bob") [mismatchRow] [1]).rows
        [1]).errors = [⟨1, "Audit is not a mismatch"⟩] ∧
    ("Audit is not a mismatch" : String) ≠ "Already resolved" ∧
    ("Audit is not a mismatch" : String) ≠ "already resolved" := by
  exact ⟨by decide, by decide, by decide, by decide⟩

/-- Counterexample for C5 as stated: an asset whose `last_audit_date` is a
present-but-empty object has a null extraction result, yet `never_audited` is
false (the code tests raw-field truthiness, not the extraction result), and
the asset lands in the `not_audited_this_year` bucket, not `never_audited`. -/
theorem never_audited_cex :
    extractDate emptyObjAsset.last_audit_date = none ∧
    (processAsset parseNone 0 0 emptyObjAsset).never_audited = false ∧
    (buildSnapshot parseNone 0 0 [emptyObjAsset]).never_audited = [] ∧
    (buildSnapshot parseNone 0 0 [emptyObjAsset]).not_audited_this_year =
      [processAsset parseNone 0 0 emptyObjAsset] := by
  exact ⟨by decide, by decide, by decide, by decide⟩

/-- Claim C5 (amended): `never_audited` is true exactly when the raw
`last_audit_date` field is falsy — in particular when it is absent — and for
such an asset the processed entry appears in the never-audited bucket and not
in the not-audited-this-year bucket; those two buckets are disjoint. -/
theorem never_audited_spec (p : String → Option Int) (ys nowMs : Int)
    (assets : List RawAsset) (a : RawAsset) (ha : a ∈ assets)
    (hfalsy : dfTruthy a.last_audit_date = false) :
    (processAsset p ys nowMs a).never_audited = true ∧
    processAsset p ys nowMs a ∈ (buildSnapshot p ys nowMs assets).never_audited ∧
    processAsset p ys nowMs a ∉ (buildSnapshot p ys nowMs assets).not_audited_this_year ∧
    (∀ x ∈ (buildSnapshot p ys nowMs assets).never_audited,
      x ∉ (buildSnapshot p ys nowMs assets).not_audited_this_year) := by
  have hnev : (processAsset p ys nowMs a).never_audited = true := by
    simp [processAsset, hfalsy]
  refine ⟨hnev, ?_, ?_, ?_⟩
  · show processAsset p ys nowMs a ∈
      List.filter (fun x => x.never_audited) (assets.map (processAsset p ys nowMs))
    exact List.mem_filter.mpr ⟨List.mem_map_of_mem _ ha, hnev⟩
  · intro hmem
    have h2 := (List.mem_filter.mp hmem).2
    rw [hnev] at h2
    simp at h2
  · intro x hx hy
    have h1 := (List.mem_filter.mp hx).2
    have h2 := (List.mem_filter.mp hy).2
    rw [h1] at h2
    simp at h2

/-- Witness for C5's amended theorem: an asset with `last_audit_date` absent. -/
theorem never_audited_witness :
    (processAsset parseNone 0 0 absentDateAsset).never_audited = true ∧
    processAsset parseNone 0 0 absentDateAsset ∈
      (buildSnapshot parseNone 0 0 [absentDateAsset]).never_audited ∧
    processAsset parseNone 0 0 absentDateAsset ∉
      (buildSnapshot parseNone 0 0 [absentDateAsset]).not_audited_this_year ∧
    (∀ x ∈ (buildSnapshot parseNone 0 0 [absentDateAsset]).never_audited,
      x ∉ (buildSnapshot parseNone 0 0 [absentDateAsset]).not_audited_this_year) :=
  never_audited_spec parseNone 0 0 [absentDateAsset] absentDateAsset
    (by decide) (by decide)

/-- Counterexample for C6 as stated: the empty string is a plain string but is
not "used as-is" — the falsiness check makes extraction yield null. -/
theorem extractDate_cex :
    extractDate (DateField.str "") = none ∧
    extractDate (DateField.str "") ≠ some "" := by
  exact ⟨by decide, by decide⟩

/-- Claim C6 (amended): date extraction yields null on an absent (or null)
field; a nonempty plain string is used as-is while the empty string yields
null; an object yields its nonempty `datetime` member, otherwise its nonempty
`formatted` member, otherwise null; and any extraction result that fails
native date parsing gives a null parse. -/
theorem extractDate_spec :
    extractDate DateField.absent = none ∧
    extractDate DateField.null = none ∧
    (∀ s, s ≠ "" → extractDate (DateField.str s) = some s) ∧
    extractDate (DateField.str "") = none ∧
    (∀ d f, d ≠ "" → extractDate (DateField.obj (some d) f) = some d) ∧
    (∀ f, f ≠ "" → extractDate (DateField.obj none (some f)) = some f ∧
      extractDate (DateField.obj (some "") (some f)) = some f) ∧
    extractDate (DateField.obj none none) = none ∧
    extractDate (DateField.obj (some "") (some "")) = none ∧
    (∀ p df s, extractDate df = some s → p s = none → parseDate p df = none) ∧
    (∀ p df, extractDate df = none → parseDate p df = none) := by
  refine ⟨rfl, rfl, ?_, rfl, ?_, ?_, rfl, rfl, ?_, ?_⟩
  · intro s hs
    simp [extractDate, hs]
  · intro d f hd
    simp [extractDate, jsOrNullStr, hd]
  · intro f hf
    exact ⟨by simp [extractDate, jsOrNullStr, hf], by simp [extractDate, jsOrNullStr, hf]⟩
  · intro p df s hex hp
    unfold parseDate
    rw [hex]
    by_cases hs : s = "" <;> simp [hs, hp]
  · intro p df hex
    unfold parseDate
    rw [hex]

/-- Witness for C6's amended theorem on concrete date fields. -/
theorem extractDate_witness :
    extractDate (DateField.obj (some "2023-01-01T00:00:00Z") none) =
      some "2023-01-01T00:00:00Z" ∧
    extractDate (DateField.obj none (some "Jan 1, 2023")) = some "Jan 1, 2023" ∧
    extractDate (DateField.str "2024-05-05") = some "2024-05-05" ∧
    parseDate parseNone (DateField.str "not a date") = none :=
  ⟨extractDate_spec.2.2.2.2.1 "2023-01-01T00:00:00Z" none (by decide),
   (extractDate_spec.2.2.2.2.2.1 "Jan 1, 2023" (by decide)).1,
   extractDate_spec.2.2.1 "2024-05-05" (by decide),
   extractDate_spec.2.2.2.2.2.2.2.2.1 parseNone (DateField.str "not a date")
     "not a date" (by decide) rfl⟩

/-- Counterexample for C7 as stated: on a cache hit 5000 ms after the store,
the reported age is 5 (seconds, `Math.round((now - ts) / 1000)`), not
`now - timestamp` = 5000 (milliseconds, the unit of the slot timestamp). -/
theorem cache_age_cex :
    (getAssetsEndpoint parseNone 0 0 (fun _ => []) 0 "pw" (some "pw") (some "tk")
      false 6000 ⟨some snap0, some 1000⟩).2 = AssetsOut.done ⟨snap0, true, 5⟩ ∧
    (5 : Nat) ≠ 6000 - 1000 := by
  exact ⟨by decide, by decide⟩

/-- Claim C7 (amended): with valid credentials, a get with `forceRefresh =
false` while both slot members are truthy (timestamp nonzero) and
`now - timestamp < 600000` returns the stored snapshot unchanged with
`cached = true` and age `round((now - timestamp) / 1000)` seconds, leaving the
slot untouched; every other get (empty slot, zero timestamp, TTL expired, or
`forceRefresh = true`) refetches all pages, classifies, stores
`(snapshot, now)`, and returns `cached = false` with age 0. -/
theorem getAssets_cache_spec (p : String → Option Int) (ys nowMs : Int)
    (pages : Nat → List RawAsset) (total : Nat) (pw : String) (tok : Option String)
    (force : Bool) (now : Nat) (cache : AssetCache)
    (htok : jsTruthyStrOpt tok = true) :
    (∀ d t, cache.data = some d → cache.timestamp = some t → force = false →
      t ≠ 0 → now - t < ttl →
      getAssetsEndpoint p ys nowMs pages total pw (some pw) tok force now cache =
        (cache, AssetsOut.done ⟨d, true, (now - t + 500) / 1000⟩)) ∧
    ((force = true ∨ cache.data = none ∨ cache.timestamp = none ∨
        cache.timestamp = some 0 ∨ (∀ t, cache.timestamp = some t → ttl ≤ now - t)) →
      getAssetsEndpoint p ys nowMs pages total pw (some pw) tok force now cache =
        (AssetCache.mk
          (some (buildSnapshot p ys nowMs (fetchAllAssetsPaged pages total)))
          (some now),
         AssetsOut.done
           ⟨buildSnapshot p ys nowMs (fetchAllAssetsPaged pages total), false, 0⟩)) := by
  constructor
  · intro d t hd ht hforce ht0 httl
    simp [getAssetsEndpoint, htok, hd, ht, hforce, ht0, httl]
  · intro hmiss
    obtain ⟨cd, ct⟩ := cache
    rcases hmiss with hf | hd | ht | ht0 | httl
    · cases cd <;> cases ct <;> simp [getAssetsEndpoint, htok, hf]
    · simp only [AssetCache.data] at hd
      subst hd
      cases ct <;> simp [getAssetsEndpoint, htok]
    · simp only [AssetCache.timestamp] at ht
      subst ht
      cases cd <;> simp [getAssetsEndpoint, htok]
    · simp only [AssetCache.timestamp] at ht0
      subst ht0
      cases cd <;> simp [getAssetsEndpoint, htok]
    · cases cd <;> cases ct with
      | none => simp [getAssetsEndpoint, htok]
      | some t =>
        have hle := httl t rfl
        simp [getAssetsEndpoint, htok, Nat.not_lt.mpr hle]

/-- Witness for C7's amended theorem: one concrete hit and one concrete
forced miss. -/
theorem getAssets_cache_witness :
    getAssetsEndpoint parseNone 0 0 (fun _ => []) 0 "pw" (some "pw") (some "tk")
        false 6000 ⟨some snap0, some 1000⟩ =
      (⟨some snap0, some 1000⟩, AssetsOut.done ⟨snap0, true, (6000 - 1000 + 500) / 1000⟩) ∧
    getAssetsEndpoint parseNone 0 0 (fun _ => []) 0 "pw" (some "pw") (some "tk")
        true 6000 ⟨some snap0, some 1000⟩ =
      (AssetCache.mk
        (some (buildSnapshot parseNone 0 0 (fetchAllAssetsPaged (fun _ => []) 0)))
        (some 6000),
       AssetsOut.done
         ⟨buildSnapshot parseNone 0 0 (fetchAllAssetsPaged (fun _ => []) 0), false, 0⟩) :=
  ⟨(getAssets_cache_spec parseNone 0 0 (fun _ => []) 0 "pw" (some "tk") false 6000
      ⟨some snap0, some 1000⟩ (by decide)).1 snap0 1000 rfl rfl rfl (by decide) (by decide),
   (getAssets_cache_spec parseNone 0 0 (fun _ => []) 0 "pw" (some "tk") true 6000
      ⟨some snap0, some 1000⟩ (by decide)).2 (Or.inl rfl)⟩

/-- The pagination loop always ends on a terminal condition: the result is the
accumulator extended by a final page that either held fewer than 500 rows or
pushed the count to the reported total. -/
theorem fetchPagesAux_stop (pages : Nat → List RawAsset) (total : Nat) :
    ∀ (n offset : Nat) (acc : List RawAsset), total - acc.length ≤ n →
    ∃ pre off, fetchPagesAux pages total offset acc = pre ++ pages off ∧
      ((pages off).length < 500 ∨ total ≤ (pre ++ pages off).length) := by
  intro n
  induction n with
  | zero =>
    intro offset acc hn
    rw [fetchPagesAux.eq_def]
    split
    · rename_i hc
      exact ⟨acc, offset, rfl, hc⟩
    · rename_i hc
      exfalso
      apply hc
      right
      simp only [List.length_append]
      omega
  | succ n ih =>
    intro offset acc hn
    rw [fetchPagesAux.eq_def]
    split
    · rename_i hc
      exact ⟨acc, offset, rfl, hc⟩
    · rename_i hc
      apply ih
      simp only [not_or, not_lt, not_le, List.length_append] at hc
      simp only [List.length_append]
      omega

/-- Length bound for the pagination loop when the remote honours the page
size: the accumulated list never exceeds the reported total by a full page. -/
theorem fetchPagesAux_le (pages : Nat → List RawAsset) (total : Nat)
    (hp : ∀ o, (pages o).length ≤ 500) :
    ∀ (n offset : Nat) (acc : List RawAsset), total - acc.length ≤ n →
    acc.length ≤ total → (fetchPagesAux pages total offset acc).length ≤ total + 500 := by
  intro n
  induction n with
  | zero =>
    intro offset acc hn hacc
    rw [fetchPagesAux.eq_def]
    split
    · have := hp offset
      simp only [List.length_append]
      omega
    · rename_i hc
      exfalso
      apply hc
      right
      simp only [List.length_append]
      omega
  | succ n ih =>
    intro offset acc hn hacc
    rw [fetchPagesAux.eq_def]
    split
    · have := hp offset
      simp only [List.length_append]
      omega
    · rename_i hc
      simp only [not_or, not_lt, not_le, List.length_append] at hc
      apply ih
      · simp only [List.length_append]
        omega
      · simp only [List.length_append]
        omega

/-- Claim C8: the paged fetch terminates (it is a total function defined by a
decreasing measure), stopping on a page shorter than 500 or on reaching the
reported total; under the 500-per-page contract the accumulated count stays
below total + 500; and the built snapshot's `total` equals the number of
accumulated assets. -/
theorem fetchPaged_spec (pages : Nat → List RawAsset) (total : Nat)
    (hp : ∀ o, (pages o).length ≤ 500) (p : String → Option Int) (ys nowMs : Int) :
    (∃ pre off, fetchAllAssetsPaged pages total = pre ++ pages off ∧
      ((pages off).length < 500 ∨ total ≤ (pre ++ pages off).length)) ∧
    (fetchAllAssetsPaged pages total).length ≤ total + 500 ∧
    (buildSnapshot p ys nowMs (fetchAllAssetsPaged pages total)).total =
      (fetchAllAssetsPaged pages total).length := by
  refine ⟨?_, ?_, rfl⟩
  · exact fetchPagesAux_stop pages total total 0 [] (by simp)
  · exact fetchPagesAux_le pages total hp total 0 [] (by simp) (by simp)

/-- Witness for C8 on a concrete remote answering one empty page. -/
theorem fetchPaged_witness :
    (∃ (pre : List RawAsset) (off : Nat), fetchAllAssetsPaged (fun _ => []) 0 = pre ++ [] ∧
      (List.length ([] : List RawAsset) < 500 ∨
        0 ≤ (pre ++ ([] : List RawAsset)).length)) ∧
    (fetchAllAssetsPaged (fun _ => []) 0).length ≤ 0 + 500 ∧
    (buildSnapshot parseNone 0 0 (fetchAllAssetsPaged (fun _ => []) 0)).total =
      (fetchAllAssetsPaged (fun _ => []) 0).length :=
  fetchPaged_spec (fun _ => []) 0 (fun o => by simp) parseNone 0 0

/-- Claim C9: missing required input — an empty (or blank) search term, a
missing `location_id`, or a missing/empty `audit_ids` array — is rejected with
a validation error and zero remote calls; the validation response is distinct
from a surfaced remote error. -/
theorem validation_spec :
    (∀ (bytag : String → Option RawAsset) (searchApi : String → List RawAsset)
      (tok q : Option String), jsTruthyStrOpt tok = true →
      (q = none ∨ q = some "" ∨ (∃ s, q = some s ∧ s.trim = "")) →
      searchEndpoint bytag searchApi tok q =
        (SearchResp.badRequest "Search query required", 0)) ∧
    (∀ (remotePatch : String → JsVal → Option (Nat × String)) (pw : String)
      (tok : Option String) (assetId : String) (loc : JsVal),
      jsTruthyStrOpt tok = true → (loc = JsVal.undef ∨ loc = JsVal.null) →
      patchLocationEndpoint remotePatch pw (some pw) tok assetId loc =
        (PatchResp.badRequest "location_id is required", 0)) ∧
    (∀ (patch : Int → JsVal → Option String) (pw : String) (tok : Option String)
      (now : String) (rows : List AuditRecord) (rb : Option String)
      (ids : Option (List Nat)), jsTruthyStrOpt tok = true →
      (ids = none ∨ ids = some []) →
      resolveEndpoint patch pw (some pw) tok now rows ids rb =
        (rows, ResolveOut.badRequest "audit_ids array is required", 0)) ∧
    (∀ (m : String) (s : Nat) (dts : String),
      PatchResp.badRequest m ≠ PatchResp.remoteError s dts) := by
  refine ⟨?_, ?_, ?_, ?_⟩
  · intro bytag searchApi tok q htok hq
    rcases hq with rfl | rfl | ⟨s, rfl, hs⟩
    · simp [searchEndpoint, htok, show jsTruthyStrOpt (none : Option String) = false from rfl]
    · simp [searchEndpoint, htok, show jsTruthyStrOpt (some "") = false from rfl]
    · simp [searchEndpoint, htok, hs]
  · intro remotePatch pw tok assetId loc htok hloc
    rcases hloc with rfl | rfl <;> simp [patchLocationEndpoint, htok, jsTruthy]
  · intro patch pw tok now rows rb ids htok hids
    rcases hids with rfl | rfl <;> simp [resolveEndpoint, htok]
  · intro m s dts h
    exact PatchResp.noConfusion h

/-- Witness for C9: the three validation rejections at concrete inputs. -/
theorem validation_witness :
    searchEndpoint (fun _ => none) (fun _ => []) (some "tk") (some "") =
      (SearchResp.badRequest "Search query required", 0) ∧
    patchLocationEndpoint (fun _ _ => none) "pw" (some "pw") (some "tk") "7" JsVal.undef =
      (PatchResp.badRequest "location_id is required", 0) ∧
    resolveEndpoint patchAlwaysOk "pw" (some "pw") (some "tk") "t" [] (some []) none =
      ([], ResolveOut.badRequest "audit_ids array is required", 0) :=
  ⟨validation_spec.1 (fun _ => none) (fun _ => []) (some "tk") (some "")
     (by decide) (Or.inr (Or.inl rfl)),
   validation_spec.2.1 (fun _ _ => none) "pw" (some "tk") "7" JsVal.undef
     (by decide) (Or.inl rfl),
   validation_spec.2.2.1 patchAlwaysOk "pw" (some "tk") "t" [] none (some [])
     (by decide) (Or.inr rfl)⟩

/-- Filtering twice with the same predicate equals filtering once. -/
theorem filter_self_idem {α : Type} (p : α → Bool) (l : List α) :
    (l.filter p).filter p = l.filter p := by
  induction l with
  | nil => rfl
  | cons a t ih =>
    by_cases h : p a = true
    · simp [List.filter_cons, h, ih]
    · simp [List.filter_cons, h, ih]

/-- Claim C10: `DELETE /api/audits/:id` reports success whether or not a row
with that id exists; it removes exactly the rows with that id, keeps every
other row and the id counter, and deleting the same id twice leaves the store
exactly as one deletion does. -/
theorem delete_audit_spec (pw : String) (db : Db) (auditId : Nat) :
    (deleteAuditEndpoint pw (some pw) db auditId).2 = DeleteOut.done true ∧
    (deleteAuditEndpoint pw (some pw) db auditId).1.rows =
      db.rows.filter (fun r => r.id != auditId) ∧
    (deleteAuditEndpoint pw (some pw) db auditId).1.nextId = db.nextId ∧
    (∀ r ∈ db.rows, r.id ≠ auditId →
      r ∈ (deleteAuditEndpoint pw (some pw) db auditId).1.rows) ∧
    (∀ r ∈ (deleteAuditEndpoint pw (some pw) db auditId).1.rows,
      r ∈ db.rows ∧ r.id ≠ auditId) ∧
    deleteAuditEndpoint pw (some pw) (deleteAuditEndpoint pw (some pw) db auditId).1
        auditId = ((deleteAuditEndpoint pw (some pw) db auditId).1, DeleteOut.done true) ∧
    (db.rows.filter (fun r => r.id == auditId) = [] →
      (deleteAuditEndpoint pw (some pw) db auditId).1 = db) := by
  have hred : deleteAuditEndpoint pw (some pw) db auditId =
      (⟨db.rows.filter (fun r => r.id != auditId), db.nextId⟩, DeleteOut.done true) := by
    simp [deleteAuditEndpoint]
  refine ⟨by rw [hred], by rw [hred], by rw [hred], ?_, ?_, ?_, ?_⟩
  · intro r hr hne
    rw [hred]
    exact List.mem_filter.mpr ⟨hr, by simpa using hne⟩
  · intro r hr
    rw [hred] at hr
    have h := List.mem_filter.mp hr
    exact ⟨h.1, by simpa using h.2⟩
  · rw [hred]
    simp [deleteAuditEndpoint, filter_self_idem]
  · intro h
    rw [hred]
    have hall : ∀ r ∈ db.rows, (r.id != auditId) = true := by
      intro r hr
      have := List.filter_eq_nil_iff.mp h r hr
      simpa using this
    obtain ⟨rows, nid⟩ := db
    simp only at hall ⊢
    rw [List.filter_eq_self.mpr hall]

/-- Witness for C10: deleting an id that does not exist succeeds and leaves
the store unchanged. -/
theorem delete_audit_witness :
    (deleteAuditEndpoint "pw" (some "pw") ⟨[mismatchRow], 2⟩ 3).1 = ⟨[mismatchRow], 2⟩ :=
  (delete_audit_spec "pw" ⟨[mismatchRow], 2⟩ 3).2.2.2.2.2.2 (by decide)
